/-
  Verification of the JDWP session controller of platform_art
  (runtime/jdwp/jdwp_main.cc), as a shallow embedding in Lean 4.

  Strings are modelled as lists of characters; machine integers as Nat or
  Int with explicit reduction modulo 2^w where the source relies on
  wraparound (uint32_t serial counters, unsigned long in strtoul).
  Fallible operations return Option; process-aborting CHECK failures are
  modelled as Option.none, while debug-only DCHECK assertions are modelled
  as separate named predicates.  Socket system calls are modelled by an
  event trace: each function returns, next to its result, the list of
  socket writes and error reports it issues, in program order.
-/
import Mathlib

namespace ArtJdwp

/-! ## Options parser (jdwp_main.cc lines 41-151) -/

/-- The JDWP transport enumeration (jdwp.h).  The four constants used by
jdwp_main.cc: Unknown, None, Socket (dt_socket) and AndroidAdb
(dt_android_adb). -/
inductive JdwpTransport where
  | kJdwpTransportUnknown
  | kJdwpTransportNone
  | kJdwpTransportSocket
  | kJdwpTransportAndroidAdb
deriving DecidableEq

/-- The JDWP option record (jdwp.h JdwpOptions).  `host` is a C++
std::string, modelled as a list of characters; `port` is a uint16_t whose
values stay below 2^16 along every parser path that stores it. -/
structure JdwpOptions where
  transport : JdwpTransport
  server : Bool
  suspend : Bool
  host : List Char
  port : Nat
deriving DecidableEq

/-- Auxiliary recursion for `Split`: accumulates the current token in
reverse. -/
def splitAccum (separator : Char) : List Char → List Char → List (List Char)
  | [], acc => if acc = [] then [] else [acc.reverse]
  | c :: rest, acc =>
    if c = separator then
      (if acc = [] then splitAccum separator rest [] else acc.reverse :: splitAccum separator rest [])
    else
      splitAccum separator rest (c :: acc)

/-- Modelled from the spec: `art::Split` (declared in base/utils.h, outside
src/) splits the option string at the separator into the `name=value`
items of the comma-separated list; empty items produce no token. -/
def Split (s : List Char) (separator : Char) : List (List Char) :=
  splitAccum separator s []

/-- The characters accepted by C `isspace` in the POSIX locale, which
`strtoul` skips before the number. -/
def isCSpace (c : Char) : Bool :=
  c = ' ' || c = '\t' || c = '\n' || c = '\x0b' || c = '\x0c' || c = '\r'

/-- The C library function `strtoul(s, &end, 10)`: skip leading white
space, accept one optional sign, then base-10 digits.  Returns the
converted value and the remaining characters (the `end` pointer).  When no
digit is consumed the value is 0 and `end` is the original string.  A
minus sign negates in unsigned arithmetic; on overflow the value saturates
at ULONG_MAX.  `unsigned long` is modelled as 64 bits wide; none of the
claims settled below depend on the width, because every accepted port is
below 2^16. -/
def strtoul (s : List Char) : Nat × List Char :=
  let t := s.dropWhile isCSpace
  let neg : Bool := match t with | c :: _ => c = '-' | [] => false
  let u : List Char := match t with
    | c :: r => if c = '-' || c = '+' then r else t
    | [] => t
  let digits := u.takeWhile Char.isDigit
  let rest := u.dropWhile Char.isDigit
  if digits = [] then (0, s)
  else
    let v := digits.foldl (fun a c => a * 10 + (c.toNat - 48)) (0 : Nat)
    let w := if v ≥ 2 ^ 64 then 2 ^ 64 - 1
             else if neg then (2 ^ 64 - v % 2 ^ 64) % 2 ^ 64 else v
    (w, rest)

/-- The port part of an `address` option value: the whole value when it
has no colon, otherwise the part after the first colon
(`value.substr(colon + 1)` at jdwp_main.cc line 79). -/
def addressPortPart (value : List Char) : List Char :=
  if value.dropWhile (fun c => ¬ (c = ':')) = [] then value
  else (value.dropWhile (fun c => ¬ (c = ':'))).tail

/-- ParseJdwpOption (jdwp_main.cc lines 41-102): dispatch on the option
name and update the record.  `none` models a `return false` path (the
source also stores Unknown into the record before failing on a bad
transport; that store is unobservable once the whole parse fails, and the
failing record is discarded here). -/
def ParseJdwpOption (name value : List Char) (jdwp_options : JdwpOptions) : Option JdwpOptions :=
  if name = ("transport".toList) then
    if value = ("dt_socket".toList) then
      some { jdwp_options with transport := JdwpTransport.kJdwpTransportSocket }
    else if value = ("dt_android_adb".toList) then
      some { jdwp_options with transport := JdwpTransport.kJdwpTransportAndroidAdb }
    else none
  else if name = ("server".toList) then
    if value = ("n".toList) then some { jdwp_options with server := false }
    else if value = ("y".toList) then some { jdwp_options with server := true }
    else none
  else if name = ("suspend".toList) then
    if value = ("n".toList) then some { jdwp_options with suspend := false }
    else if value = ("y".toList) then some { jdwp_options with suspend := true }
    else none
  else if name = ("address".toList) then
    let before := value.takeWhile (fun c => ¬ (c = ':'))
    let after := value.dropWhile (fun c => ¬ (c = ':'))
    let withHost :=
      if after = [] then { jdwp_options with host := ([] : List Char) }
      else { jdwp_options with host := before }
    let port_string := addressPortPart value
    if port_string = [] then none
    else
      let pr := strtoul port_string
      if ¬ (pr.2 = []) ∨ pr.1 > 0xffff then none
      else some { withHost with port := pr.1 }
  else some jdwp_options

/-- The per-pair loop of ParseJdwpOptions (jdwp_main.cc lines 119-133):
each item must contain an `=`; the name is the part before the first `=`
and the value the part after it. -/
def ParseJdwpOptionsPairs : List (List Char) → JdwpOptions → Option JdwpOptions
  | [], o => some o
  | p :: ps, o =>
    let name := p.takeWhile (fun c => ¬ (c = '='))
    let rest := p.dropWhile (fun c => ¬ (c = '='))
    match rest with
    | [] => none
    | _ :: valuePart =>
      match ParseJdwpOption name valuePart o with
      | none => none
      | some o₂ => ParseJdwpOptionsPairs ps o₂

/-- The ART_TARGET_ANDROID block of ParseJdwpOptions (jdwp_main.cc lines
139-144): on device builds an unspecified transport defaults to
dt_android_adb; other builds leave the record unchanged. -/
def parseJdwpOptionsDefaultTransport (o₁ : JdwpOptions) (art_target_android : Bool) :
    JdwpOptions :=
  if art_target_android = true ∧ o₁.transport = JdwpTransport.kJdwpTransportNone
  then { o₁ with transport := JdwpTransport.kJdwpTransportAndroidAdb }
  else o₁

/-- The final validation of ParseJdwpOptions (jdwp_main.cc lines 145-150):
with server=n a host and a non-zero port are mandatory. -/
def parseJdwpOptionsFinish (o₂ : JdwpOptions) : Option JdwpOptions :=
  if o₂.server = false ∧ (o₂.host = [] ∨ o₂.port = 0) then none
  else some o₂

/-- ParseJdwpOptions (jdwp_main.cc lines 104-151).  `art_target_android`
reflects the ART_TARGET_ANDROID conditional compilation at lines 139-144
(defaulting an unspecified transport to dt_android_adb on device builds).
`none` models `return false`. -/
def ParseJdwpOptions (options : List Char) (jdwp_options : JdwpOptions)
    (art_target_android : Bool) : Option JdwpOptions :=
  if options = ("help".toList) then none
  else
    match ParseJdwpOptionsPairs (Split options ',') jdwp_options with
    | none => none
    | some o₁ =>
      if o₁.transport = JdwpTransport.kJdwpTransportUnknown then none
      else parseJdwpOptionsFinish (parseJdwpOptionsDefaultTransport o₁ art_target_android)

/-- The spec's words for a numeric port: non-empty and made of decimal
digits only. -/
def portIsNumeric (l : List Char) : Bool :=
  ¬ (l = []) ∧ l.all Char.isDigit

/-- A concrete pre-parse record used to instantiate theorems; the
theorems about the parser quantify over every initial record. -/
def jdwpOptionsInit : JdwpOptions :=
  { transport := JdwpTransport.kJdwpTransportNone
    server := false
    suspend := false
    host := []
    port := 0 }

/-! ## Net State (jdwp_main.cc lines 153-267) -/

/-- Socket-level and controller-level effects, recorded in program order.
`write` is the write(2) issued by WritePacket, `writev` the writev(2)
issued by WriteBufferedPacketLocked; `logError` is a PLOG(ERROR) report;
the remaining constructors record HandlePacket and Run effects. -/
inductive Ev where
  | write (fd : Int) (len : Nat)
  | writev (fd : Int) (len : Nat)
  | logError
  | releaseJdwpToken
  | consume (n : Nat)
  | broadcastShutdown
  | setDebugThreadId (v : Nat)
  | attachBroadcast
deriving DecidableEq

/-- JdwpNetStateBase (jdwp_priv.h fields as used in jdwp_main.cc):
`clientSock` is an int file descriptor with -1 the disconnected sentinel;
`input_buffer_` holds `input_count_` valid bytes of prefix. -/
structure JdwpNetStateBase where
  clientSock : Int
  wake_pipe_ : Int × Int
  input_buffer_ : List Nat
  input_count_ : Nat
  awaiting_handshake_ : Bool
deriving DecidableEq

/-- JdwpNetStateBase constructor (lines 156-163). -/
def JdwpNetStateBase.ctorInit : JdwpNetStateBase :=
  { clientSock := -1
    wake_pipe_ := (-1, -1)
    input_buffer_ := []
    input_count_ := 0
    awaiting_handshake_ := false }

/-- IsConnected (lines 224-226): `clientSock >= 0`. -/
def JdwpNetStateBase.IsConnected (ns : JdwpNetStateBase) : Bool :=
  decide (0 ≤ ns.clientSock)

/-- ConsumeBytes (lines 192-203).  The source CHECKs `0 < count` and
`count ≤ input_count_` (release-mode aborts); the theorems below carry
those as hypotheses.  When `count = input_count_` the buffer is left
untouched; otherwise memmove shifts the residual `input_count_ - count`
bytes to the front and the bytes from position `input_count_ - count`
onward keep their old values. -/
def JdwpNetStateBase.ConsumeBytes (ns : JdwpNetStateBase) (count : Nat) : JdwpNetStateBase :=
  if count = ns.input_count_ then { ns with input_count_ := 0 }
  else
    { ns with
      input_buffer_ :=
        (ns.input_buffer_.drop count).take (ns.input_count_ - count) ++
          ns.input_buffer_.drop (ns.input_count_ - count)
      input_count_ := ns.input_count_ - count }

/-- Modelled from the spec: `Get4BE` (jdwp_bits.h, outside src/) reads the
4-byte big-endian length prefix of a packet:
`(b0 << 24) | (b1 << 16) | (b2 << 8) | b3`. -/
def Get4BE (buf : List Nat) : Nat :=
  ((buf.getD 0 0) <<< 24) ||| ((buf.getD 1 0) <<< 16) ||| ((buf.getD 2 0) <<< 8) ||| buf.getD 3 0

/-- Modelled from the spec: `kMagicHandshakeLen` (jdwp_priv.h, outside
src/) is the length of the 14-byte ASCII handshake `JDWP-Handshake`. -/
def kMagicHandshakeLen : Nat := 14

/-- HaveFullPacket (lines 205-214). -/
def JdwpNetStateBase.HaveFullPacket (ns : JdwpNetStateBase) : Bool :=
  if ns.awaiting_handshake_ then decide (kMagicHandshakeLen ≤ ns.input_count_)
  else if ns.input_count_ < 4 then false
  else decide (Get4BE ns.input_buffer_ ≤ ns.input_count_)

/-- WritePacket (lines 245-253): if not connected, log a warning and
return -1 with no socket I/O; otherwise issue one write(2) of `length`
bytes under `socket_lock_`.  `os_write` is the value returned by the
operating system for that write; the DCHECK that `length` is within the
reply buffer is a debug-only precondition outside this model. -/
def JdwpNetStateBase.WritePacket (ns : JdwpNetStateBase) (length : Nat) (os_write : Int) :
    Int × List Ev :=
  if ns.IsConnected then (os_write, [Ev.write ns.clientSock length])
  else (-1, [])

/-- The DCHECK at line 265: WriteBufferedPacketLocked asserts that the
connection is live.  Active in debug builds only. -/
def WriteBufferedPacketLockedAssertOk (ns : JdwpNetStateBase) : Prop :=
  ns.IsConnected = true

/-- WriteBufferedPacketLocked (lines 263-267): after the debug-only
assertion it unconditionally issues one writev(2) on `clientSock` for the
whole iovec list (`iov_lens` are the iov_len fields). -/
def JdwpNetStateBase.WriteBufferedPacketLocked (ns : JdwpNetStateBase) (iov_lens : List Nat)
    (os_write : Int) : Int × List Ev :=
  (os_write, [Ev.writev ns.clientSock (iov_lens.foldl (fun a b => a + b) 0)])

/-- WriteBufferedPacket (lines 258-261): take `socket_lock_`, then
WriteBufferedPacketLocked. -/
def JdwpNetStateBase.WriteBufferedPacket (ns : JdwpNetStateBase) (iov_lens : List Nat)
    (os_write : Int) : Int × List Ev :=
  ns.WriteBufferedPacketLocked iov_lens os_write

/-! ## Session controller (jdwp_main.cc lines 269-547, 726-746) -/

/-- The JdwpState fields this file's claims touch.  `debug_thread_id_` is
an ObjectId (uint64_t); `last_activity_time_ms_` an Atomic of int64_t;
the serial counters are uint32_t. -/
structure JdwpState where
  netState : Option JdwpNetStateBase
  debug_thread_id_ : Nat
  request_serial_ : Nat
  event_serial_ : Nat
  processing_request_ : Bool
  last_activity_time_ms_ : Int
deriving DecidableEq

/-- The JdwpState constructor initializers (lines 328-356) restricted to
the modelled fields: no net state, id 0, serials 0x10000000 and
0x20000000, no request in flight, zero activity clock. -/
def JdwpState.ctorInit : JdwpState :=
  { netState := none
    debug_thread_id_ := 0
    request_serial_ := 0x10000000
    event_serial_ := 0x20000000
    processing_request_ := false
    last_activity_time_ms_ := 0 }

/-- JdwpState::IsConnected (lines 269-271): non-null net state and a live
socket. -/
def JdwpState.IsConnected (st : JdwpState) : Bool :=
  match st.netState with
  | none => false
  | some ns => ns.IsConnected

/-- SendBufferedRequest (lines 273-295): return silently when no debugger
is attached; otherwise write the iovec list and log an error on a short
write.  The member state is never modified, so the unchanged state is
returned next to the event trace. -/
def JdwpState.SendBufferedRequest (st : JdwpState) (iov_lens : List Nat) (os_write : Int) :
    JdwpState × List Ev :=
  if st.IsConnected = false then (st, [])
  else
    match st.netState with
    | none => (st, [])
    | some ns =>
      let expected := iov_lens.foldl (fun a b => a + b) (0 : Nat)
      let wr := ns.WriteBufferedPacket iov_lens os_write
      (st, wr.2 ++ (if wr.1 = (expected : Int) then [] else [Ev.logError]))

/-- SendRequest (lines 297-310): return silently when no debugger is
attached; otherwise WritePacket the whole request buffer (`req_len` is
expandBufGetLength) and log an error on a short write. -/
def JdwpState.SendRequest (st : JdwpState) (req_len : Nat) (os_write : Int) :
    JdwpState × List Ev :=
  if st.IsConnected = false then (st, [])
  else
    match st.netState with
    | none => (st, [])
    | some ns =>
      let wr := ns.WritePacket req_len os_write
      (st, wr.2 ++ (if wr.1 = (req_len : Int) then [] else [Ev.logError]))

/-- NextRequestSerial (lines 316-318): return the current value of the
uint32_t counter and post-increment it. -/
def JdwpState.NextRequestSerial (st : JdwpState) : Nat × JdwpState :=
  (st.request_serial_, { st with request_serial_ := (st.request_serial_ + 1) % 2 ^ 32 })

/-- NextEventSerial (lines 324-326): return the current value of the
uint32_t counter and post-increment it. -/
def JdwpState.NextEventSerial (st : JdwpState) : Nat × JdwpState :=
  (st.event_serial_, { st with event_serial_ := (st.event_serial_ + 1) % 2 ^ 32 })

/-- The controller state after `k` calls to NextRequestSerial, starting
from the constructed state. -/
def jdwpStateAfterRequestCalls : Nat → JdwpState
  | 0 => JdwpState.ctorInit
  | k + 1 => (JdwpState.NextRequestSerial (jdwpStateAfterRequestCalls k)).2

/-- The value returned by the (k+1)-th call to NextRequestSerial. -/
def requestSerialReturned (k : Nat) : Nat :=
  (JdwpState.NextRequestSerial (jdwpStateAfterRequestCalls k)).1

/-- The controller state after `k` calls to NextEventSerial, starting
from the constructed state. -/
def jdwpStateAfterEventCalls : Nat → JdwpState
  | 0 => JdwpState.ctorInit
  | k + 1 => (JdwpState.NextEventSerial (jdwpStateAfterEventCalls k)).2

/-- The value returned by the (k+1)-th call to NextEventSerial. -/
def eventSerialReturned (k : Nat) : Nat :=
  (JdwpState.NextEventSerial (jdwpStateAfterEventCalls k)).1

/-- HandlePacket (lines 510-547).  `none` models a release-mode CHECK
abort: the null-net-state CHECK at line 517, and the CHECKs inside the
ConsumeBytes call at line 540 (`CHECK_GT(count, 0)` and
`CHECK_LE(count, input_count_)` at lines 193-194 — a request whose
4-byte length prefix is 0 or exceeds the buffered count aborts the
process there).  `reply_length` and `skip_reply` are the outputs of the
external ProcessRequest collaborator; `os_write` is the operating-system
result of the reply write when one is attempted.  The request length is
the Request view's length, modelled from the spec as the 4-byte
big-endian length prefix of the buffered packet (class Request lives in
jdwp_request.cc, outside src/).  On a byte-count mismatch the function
returns false after releasing the JDWP token, leaving
`processing_request_` set and the input buffer unconsumed; otherwise it
consumes the request bytes, clears `processing_request_` under
`shutdown_lock_`, broadcasts `shutdown_cond_` and returns true. -/
def JdwpState.HandlePacket (st : JdwpState) (reply_length : Nat) (skip_reply : Bool)
    (os_write : Int) : Option (Bool × JdwpState × List Ev) :=
  match st.netState with
  | none => none
  | some ns =>
    let st₁ : JdwpState := { st with processing_request_ := true }
    let requestLength := Get4BE ns.input_buffer_
    let wr : Int × List Ev := if skip_reply then (0, []) else ns.WritePacket reply_length os_write
    if wr.1 = (reply_length : Int) then
      if 0 < requestLength ∧ requestLength ≤ ns.input_count_ then
        some (true,
          { st₁ with
              processing_request_ := false
              netState := some (ns.ConsumeBytes requestLength) },
          wr.2 ++ [Ev.releaseJdwpToken, Ev.consume requestLength, Ev.broadcastShutdown])
      else none
    else
      some (false, st₁, wr.2 ++ [Ev.releaseJdwpToken, Ev.logError])

/-- LastDebuggerActivity (lines 726-746).  `debugger_active` is the
external Dbg::IsDebuggerActive; `last` the sequentially consistent load of
`last_activity_time_ms_`, modelled as a plain value; `now` the MilliTime
clock reading.  `none` models the CHECK_GE(now, last) abort. -/
def LastDebuggerActivity (debugger_active : Bool) (last now : Int) : Option Int :=
  if debugger_active = false then some (-1)
  else if last = 0 then some 0
  else if now < last then none
  else some (now - last)

/-- The debug_thread_id_ / attach_cond_ effects of one pass of the Run
connection phase (lines 594-651), in program order.  `connect_ok` is the
result of Accept (server) or Establish (client); `process_ok` the result
of the first ProcessIncoming; `awaiting_after` whether the net state is
still awaiting the handshake after that first call; `tid` the external
Dbg::GetThreadSelfId.  On Establish failure the worker stores the
uint64_t sentinel `(ObjectId)-1 = 2^64 - 1` and broadcasts; on a consumed
handshake it stores `tid` and broadcasts; otherwise it touches neither. -/
def RunConnectTrace (is_server connect_ok process_ok awaiting_after : Bool) (tid : Nat) :
    List Ev :=
  if connect_ok then
    if process_ok then
      if awaiting_after then []
      else [Ev.setDebugThreadId tid, Ev.attachBroadcast]
    else []
  else
    if is_server then []
    else [Ev.setDebugThreadId (2 ^ 64 - 1), Ev.attachBroadcast]

/-- The tail of Create for suspend=y (lines 403-431): the caller waits
under `attach_lock_` until `debug_thread_id_` is non-zero (`id` is the
observed value), then returns none when IsActive() is false and the
controller (represented by the observed id) otherwise. -/
def CreateSuspendWait (id : Nat) (is_active : Bool) : Option Nat :=
  if is_active then some id else none

/-! ## Concrete instances used by witnesses -/

/-- The record produced by the spec's scenario S2 string, used as the
C2 witness instance. -/
def s2Record : JdwpOptions :=
  { transport := JdwpTransport.kJdwpTransportSocket
    server := false
    suspend := true
    host := ("localhost".toList)
    port := 6500 }

/-- A concrete connected net state with 4 valid bytes buffered, used to
instantiate theorems. -/
def sampleNetState : JdwpNetStateBase :=
  { clientSock := 3
    wake_pipe_ := (4, 5)
    input_buffer_ := [10, 20, 30, 40, 50]
    input_count_ := 4
    awaiting_handshake_ := false }

/-- A controller whose net state is the disconnected constructor state,
used to instantiate theorems about the disconnected write paths. -/
def disconnectedJdwpState : JdwpState :=
  { netState := some JdwpNetStateBase.ctorInit
    debug_thread_id_ := 0
    request_serial_ := 0x10000000
    event_serial_ := 0x20000000
    processing_request_ := false
    last_activity_time_ms_ := 0 }

/-- A connected net state holding one complete 4-byte-length packet
(length prefix 4) plus two extra buffered bytes. -/
def c3NetState : JdwpNetStateBase :=
  { clientSock := 3
    wake_pipe_ := (4, 5)
    input_buffer_ := [0, 0, 0, 4, 7, 7]
    input_count_ := 6
    awaiting_handshake_ := false }

/-- A controller connected through `c3NetState`. -/
def c3State : JdwpState :=
  { netState := some c3NetState
    debug_thread_id_ := 1
    request_serial_ := 0x10000000
    event_serial_ := 0x20000000
    processing_request_ := false
    last_activity_time_ms_ := 0 }

/-! ## Theorems -/

/-- C2: for every option string on which ParseJdwpOptions returns true
(for any initial record and either ART_TARGET_ANDROID setting), the
resulting record satisfies: transport is not Unknown, and if server is
false then host is non-empty and port is non-zero. -/
theorem C2_parse_accept_postcondition (o : JdwpOptions) (s : List Char) (flag : Bool)
    (r : JdwpOptions) (h : ParseJdwpOptions s o flag = some r) :
    r.transport ≠ JdwpTransport.kJdwpTransportUnknown ∧
      (r.server = false → r.host ≠ [] ∧ r.port ≠ 0) := by
  unfold ParseJdwpOptions at h
  split at h
  · cases h
  · split at h
    · cases h
    · rename_i o₁ hpairs
      split at h
      · cases h
      · rename_i hunk
        unfold parseJdwpOptionsFinish at h
        split at h
        · cases h
        · rename_i hfinal
          injection h with h
          subst h
          constructor
          · unfold parseJdwpOptionsDefaultTransport
            split
            · simp
            · exact hunk
          · intro hs
            constructor
            · intro hh
              exact hfinal ⟨hs, Or.inl hh⟩
            · intro hp
              exact hfinal ⟨hs, Or.inr hp⟩

/-- Witness for C2: the spec's scenario S2,
`transport=dt_socket,address=localhost:6500,server=n,suspend=y`, is
accepted and its record meets the postcondition. -/
theorem C2_parse_accept_postcondition_witness :
    s2Record.transport ≠ JdwpTransport.kJdwpTransportUnknown ∧
      (s2Record.server = false → s2Record.host ≠ [] ∧ s2Record.port ≠ 0) :=
  C2_parse_accept_postcondition jdwpOptionsInit
    ("transport=dt_socket,address=localhost:6500,server=n,suspend=y".toList) false
    s2Record (by decide)

/-- C4: HaveFullPacket is true exactly when, awaiting the handshake, at
least 14 bytes are buffered, and otherwise when at least 4 bytes are
buffered and the count reaches the 4-byte big-endian length prefix. -/
theorem C4_haveFullPacket_iff (ns : JdwpNetStateBase) :
    ns.HaveFullPacket = true ↔
      ((ns.awaiting_handshake_ = true ∧ 14 ≤ ns.input_count_) ∨
        (ns.awaiting_handshake_ = false ∧ 4 ≤ ns.input_count_ ∧
          Get4BE ns.input_buffer_ ≤ ns.input_count_)) := by
  unfold JdwpNetStateBase.HaveFullPacket
  cases h : ns.awaiting_handshake_
  · simp [h]
  · simp [h, kMagicHandshakeLen]

/-- C5: under the source's CHECKed precondition `0 < n ≤ input_count`
(and the buffer invariant `input_count ≤ |input_buffer|`), ConsumeBytes
leaves `input_count - n` valid bytes that equal the original bytes
`n .. input_count`, and when `n = input_count` it resets the count to 0
with the buffer bytes untouched. -/
theorem C5_consumeBytes_suffix (ns : JdwpNetStateBase) (n : Nat)
    (h0 : 0 < n) (h1 : n ≤ ns.input_count_) (h2 : ns.input_count_ ≤ ns.input_buffer_.length) :
    (ns.ConsumeBytes n).input_count_ = ns.input_count_ - n ∧
      (ns.ConsumeBytes n).input_buffer_.take ((ns.ConsumeBytes n).input_count_) =
        (ns.input_buffer_.drop n).take (ns.input_count_ - n) ∧
      (n = ns.input_count_ →
        (ns.ConsumeBytes n).input_buffer_ = ns.input_buffer_ ∧
          (ns.ConsumeBytes n).input_count_ = 0) := by
  unfold JdwpNetStateBase.ConsumeBytes
  split
  · rename_i heq
    subst heq
    simp
  · rename_i hne
    refine ⟨rfl, ?_, fun hc => absurd hc hne⟩
    have hlen : ((ns.input_buffer_.drop n).take (ns.input_count_ - n)).length =
        ns.input_count_ - n := by
      simp
      omega
    simpa using List.take_left' hlen

/-- Witness for C5: consuming 2 of 4 buffered bytes of `[10,20,30,40,50]`
keeps the suffix `[30,40]` and the residue count 2. -/
theorem C5_consumeBytes_suffix_witness :
    (sampleNetState.ConsumeBytes 2).input_count_ = sampleNetState.input_count_ - 2 ∧
      (sampleNetState.ConsumeBytes 2).input_buffer_.take
          ((sampleNetState.ConsumeBytes 2).input_count_) =
        (sampleNetState.input_buffer_.drop 2).take (sampleNetState.input_count_ - 2) ∧
      (2 = sampleNetState.input_count_ →
        (sampleNetState.ConsumeBytes 2).input_buffer_ = sampleNetState.input_buffer_ ∧
          (sampleNetState.ConsumeBytes 2).input_count_ = 0) :=
  C5_consumeBytes_suffix sampleNetState 2 (by decide) (by decide) (by decide)

/-- C6 counterexample: the address value `+80` is accepted by
ParseJdwpOption (strtoul consumes the sign), with port 80, although its
port part is not numeric in the spec's sense (it contains the non-digit
`+`).  So acceptance does not imply a numeric port part. -/
theorem C6_counterexample :
    (ParseJdwpOption ("address".toList) ("+80".toList) jdwpOptionsInit).isSome = true ∧
      portIsNumeric (addressPortPart ("+80".toList)) = false := by decide

/-- C6 amended: an address value is accepted exactly when its port part
(the whole value, or the part after the first colon) is non-empty, parses
completely under C strtoul base-10 semantics (optional leading white
space and sign, then digits to the end), and yields a value at most
0xFFFF.  In particular an empty port is rejected, a trailing non-digit is
rejected, and the spec's S4 string
`transport=dt_socket,address=80a0,server=y` is rejected. -/
theorem C6_amended_port_acceptance :
    (∀ (value : List Char) (o : JdwpOptions),
        (ParseJdwpOption ("address".toList) value o).isSome = true ↔
          (addressPortPart value ≠ [] ∧ (strtoul (addressPortPart value)).2 = [] ∧
            (strtoul (addressPortPart value)).1 ≤ 0xffff)) ∧
      ParseJdwpOptions ("transport=dt_socket,address=80a0,server=y".toList) jdwpOptionsInit
          false = none := by
  constructor
  · intro value o
    unfold ParseJdwpOption
    rw [if_neg (by decide : ¬ (("address".toList : List Char) = "transport".toList)),
        if_neg (by decide : ¬ (("address".toList : List Char) = "server".toList)),
        if_neg (by decide : ¬ (("address".toList : List Char) = "suspend".toList)),
        if_pos (rfl : ("address".toList : List Char) = "address".toList)]
    dsimp only
    split
    · rename_i hempty
      simp only [Option.isSome_none, Bool.false_eq_true, false_iff]
      intro hc
      exact hc.1 hempty
    · rename_i hempty
      split
      · rename_i hbad
        simp only [Option.isSome_none, Bool.false_eq_true, false_iff]
        intro hc
        rcases hbad with hb | hb
        · exact hb hc.2.1
        · exact absurd hc.2.2 (by omega)
      · rename_i hgood
        simp only [Option.isSome_some, true_iff]
        push_neg at hgood
        exact ⟨hempty, hgood.1, by omega⟩
  · decide

/-- C1 counterexample: on a disconnected net state (clientSock = -1),
WriteBufferedPacket still issues its writev on the socket — its event
trace is non-empty — so the claim that it performs no write while
disconnected is false of the function itself (connectivity is only a
debug-build assertion there; the callers check it). -/
theorem C1_counterexample :
    JdwpNetStateBase.ctorInit.clientSock < 0 ∧
      (JdwpNetStateBase.ctorInit.WriteBufferedPacket [5] 5).2 ≠ [] := by decide

/-- C1 amended: when clientSock is negative, WritePacket returns -1 with
no socket I/O; WriteBufferedPacketLocked's connectivity DCHECK fails
(it does not itself skip the writev), and the call path that reaches it
from the controller, SendBufferedRequest, issues no socket I/O because it
returns before writing when not connected. -/
theorem C1_amended_no_write_when_disconnected (ns : JdwpNetStateBase) (st : JdwpState)
    (length : Nat) (iov_lens : List Nat) (os_write : Int) (hdisc : ns.clientSock < 0) :
    ns.WritePacket length os_write = (-1, []) ∧
      ¬ WriteBufferedPacketLockedAssertOk ns ∧
      (st.netState = some ns → st.SendBufferedRequest iov_lens os_write = (st, [])) := by
  have hconn : ns.IsConnected = false := by
    unfold JdwpNetStateBase.IsConnected
    simp only [decide_eq_false_iff_not]
    omega
  refine ⟨?_, ?_, ?_⟩
  · simp [JdwpNetStateBase.WritePacket, hconn]
  · simp [WriteBufferedPacketLockedAssertOk, hconn]
  · intro hst
    have hstc : st.IsConnected = false := by
      simp [JdwpState.IsConnected, hst, hconn]
    simp [JdwpState.SendBufferedRequest, hstc]

/-- Witness for the amended C1 at the concrete disconnected constructor
state. -/
theorem C1_amended_no_write_when_disconnected_witness :
    JdwpNetStateBase.ctorInit.WritePacket 3 3 = (-1, []) ∧
      ¬ WriteBufferedPacketLockedAssertOk JdwpNetStateBase.ctorInit ∧
      (disconnectedJdwpState.netState = some JdwpNetStateBase.ctorInit →
        disconnectedJdwpState.SendBufferedRequest [3] 3 = (disconnectedJdwpState, [])) :=
  C1_amended_no_write_when_disconnected JdwpNetStateBase.ctorInit disconnectedJdwpState
    3 [3] 3 (by decide)

/-- C10: when no connection is live, SendBufferedRequest and SendRequest
return with the controller state unchanged and an empty event trace — no
socket write and no error report. -/
theorem C10_send_silent_when_not_connected (st : JdwpState) (iov_lens : List Nat)
    (req_len : Nat) (os_write : Int) (h : st.IsConnected = false) :
    st.SendBufferedRequest iov_lens os_write = (st, []) ∧
      st.SendRequest req_len os_write = (st, []) := by
  constructor <;> simp [JdwpState.SendBufferedRequest, JdwpState.SendRequest, h]

/-- Witness for C10 at the constructed controller (no net state). -/
theorem C10_send_silent_when_not_connected_witness :
    JdwpState.ctorInit.SendBufferedRequest [4] 4 = (JdwpState.ctorInit, []) ∧
      JdwpState.ctorInit.SendRequest 4 4 = (JdwpState.ctorInit, []) :=
  C10_send_silent_when_not_connected JdwpState.ctorInit [4] 4 4 (by decide)

/-- The request serial counter after k calls, in closed form: the
uint32_t counter wraps modulo 2^32. -/
theorem jdwpStateAfterRequestCalls_serial (k : Nat) :
    (jdwpStateAfterRequestCalls k).request_serial_ = (0x10000000 + k) % 2 ^ 32 := by
  induction k with
  | zero => decide
  | succ k ih =>
    unfold jdwpStateAfterRequestCalls JdwpState.NextRequestSerial
    simp only []
    rw [ih]
    omega

/-- The value returned by the (k+1)-th NextRequestSerial call, in closed
form. -/
theorem requestSerialReturned_eq (k : Nat) :
    requestSerialReturned k = (0x10000000 + k) % 2 ^ 32 :=
  jdwpStateAfterRequestCalls_serial k

/-- The event serial counter after k calls, in closed form. -/
theorem jdwpStateAfterEventCalls_serial (k : Nat) :
    (jdwpStateAfterEventCalls k).event_serial_ = (0x20000000 + k) % 2 ^ 32 := by
  induction k with
  | zero => decide
  | succ k ih =>
    unfold jdwpStateAfterEventCalls JdwpState.NextEventSerial
    simp only []
    rw [ih]
    omega

/-- The value returned by the (k+1)-th NextEventSerial call, in closed
form. -/
theorem eventSerialReturned_eq (k : Nat) :
    eventSerialReturned k = (0x20000000 + k) % 2 ^ 32 :=
  jdwpStateAfterEventCalls_serial k

/-- C7 counterexample: the request serials are not strictly increasing
over all successive calls — the uint32_t counter wraps: call number
0xEFFFFFFF returns 0xFFFFFFFF and the next call returns 0. -/
theorem C7_counterexample :
    ¬ (∀ k : Nat, requestSerialReturned k < requestSerialReturned (k + 1)) := by
  intro hmono
  have h := hmono 0xEFFFFFFF
  rw [requestSerialReturned_eq, requestSerialReturned_eq] at h
  omega

/-- C7 amended: NextRequestSerial starts at 0x10000000 and NextEventSerial
at 0x20000000; each returns the current counter and post-increments it
modulo 2^32, so the returned values are strictly increasing as long as
the counter has not wrapped (calls up to index 0xEFFFFFFF for requests,
0xDFFFFFFF for events). -/
theorem C7_amended_serials (j k : Nat) (hjk : j < k) :
    requestSerialReturned 0 = 0x10000000 ∧ eventSerialReturned 0 = 0x20000000 ∧
      (k ≤ 0xEFFFFFFF → requestSerialReturned j < requestSerialReturned k) ∧
      (k ≤ 0xDFFFFFFF → eventSerialReturned j < eventSerialReturned k) := by
  refine ⟨by decide, by decide, ?_, ?_⟩
  · intro hk
    rw [requestSerialReturned_eq, requestSerialReturned_eq]
    omega
  · intro hk
    rw [eventSerialReturned_eq, eventSerialReturned_eq]
    omega

/-- Witness for the amended C7 at j = 0, k = 1. -/
theorem C7_amended_serials_witness :
    requestSerialReturned 0 = 0x10000000 ∧ eventSerialReturned 0 = 0x20000000 ∧
      (1 ≤ 0xEFFFFFFF → requestSerialReturned 0 < requestSerialReturned 1) ∧
      (1 ≤ 0xDFFFFFFF → eventSerialReturned 0 < eventSerialReturned 1) :=
  C7_amended_serials 0 1 (by decide)

/-- C8: LastDebuggerActivity returns -1 when no debugger is attached,
0 when the activity clock reads 0, and now - last otherwise (the CHECK
now ≥ last holding). -/
theorem C8_lastDebuggerActivity (debugger_active : Bool) (last now : Int) :
    (debugger_active = false → LastDebuggerActivity debugger_active last now = some (-1)) ∧
      (debugger_active = true → last = 0 →
        LastDebuggerActivity debugger_active last now = some 0) ∧
      (debugger_active = true → last ≠ 0 → last ≤ now →
        LastDebuggerActivity debugger_active last now = some (now - last)) := by
  refine ⟨?_, ?_, ?_⟩
  · intro h
    simp [LastDebuggerActivity, h]
  · intro h h0
    simp [LastDebuggerActivity, h, h0]
  · intro h h0 hle
    unfold LastDebuggerActivity
    rw [if_neg (by simp [h]), if_neg h0, if_neg (by omega)]

/-- Witness for C8 at concrete inputs for each of the three cases. -/
theorem C8_lastDebuggerActivity_witness :
    LastDebuggerActivity false 0 0 = some (-1) ∧
      LastDebuggerActivity true 0 3 = some 0 ∧
      LastDebuggerActivity true 5 12 = some 7 :=
  ⟨(C8_lastDebuggerActivity false 0 0).1 rfl,
   (C8_lastDebuggerActivity true 0 3).2.1 rfl rfl,
   by simpa using (C8_lastDebuggerActivity true 5 12).2.2 rfl (by decide) (by decide)⟩

/-- C3: a characterization of HandlePacket given a non-null net state and
a request length that passes ConsumeBytes's release-mode CHECKs
(0 < length prefix ≤ buffered count; outside that the program aborts in
ConsumeBytes and HandlePacket is none).  The bytes written are 0 when the
reply is skipped, the write(2) result when connected, -1 otherwise.  On a
mismatch with the expected reply length the function returns false after
releasing the JDWP token, with the buffer unconsumed and
processing_request_ left set; on a match it consumes the request's length
(the packet's 4-byte big-endian prefix), clears processing_request_,
broadcasts shutdown_cond_ and returns true. -/
theorem C3_handlePacket (st : JdwpState) (ns : JdwpNetStateBase) (reply_length : Nat)
    (skip_reply : Bool) (os_write : Int) (h : st.netState = some ns)
    (hck : 0 < Get4BE ns.input_buffer_ ∧ Get4BE ns.input_buffer_ ≤ ns.input_count_) :
    ((if skip_reply then (0 : Int) else if ns.IsConnected then os_write else -1) ≠
        (reply_length : Int) →
      st.HandlePacket reply_length skip_reply os_write =
        some (false, { st with processing_request_ := true },
          (if skip_reply then ([] : List Ev)
           else if ns.IsConnected then [Ev.write ns.clientSock reply_length] else []) ++
            [Ev.releaseJdwpToken, Ev.logError])) ∧
    ((if skip_reply then (0 : Int) else if ns.IsConnected then os_write else -1) =
        (reply_length : Int) →
      st.HandlePacket reply_length skip_reply os_write =
        some (true,
          { st with processing_request_ := false,
                    netState := some (ns.ConsumeBytes (Get4BE ns.input_buffer_)) },
          (if skip_reply then ([] : List Ev)
           else if ns.IsConnected then [Ev.write ns.clientSock reply_length] else []) ++
            [Ev.releaseJdwpToken, Ev.consume (Get4BE ns.input_buffer_),
              Ev.broadcastShutdown])) := by
  unfold JdwpState.HandlePacket JdwpNetStateBase.WritePacket
  rw [h]
  constructor <;> intro hcc <;> cases skip_reply <;> cases hc : ns.IsConnected <;>
    (try simp only [hc] at hcc ⊢) <;> (try simp [hck.1, hck.2] at hcc ⊢) <;> exact hcc

/-- Witness for C3: a fully written 2-byte reply on the connected state
takes the success path: consume of the 4-byte packet, processing flag
cleared, shutdown broadcast, return true. -/
theorem C3_handlePacket_witness :
    c3State.HandlePacket 2 false 2 =
      some (true,
        { c3State with processing_request_ := false,
                       netState := some (c3NetState.ConsumeBytes (Get4BE c3NetState.input_buffer_)) },
        (if false then ([] : List Ev)
         else if c3NetState.IsConnected then [Ev.write c3NetState.clientSock 2] else []) ++
          [Ev.releaseJdwpToken, Ev.consume (Get4BE c3NetState.input_buffer_),
            Ev.broadcastShutdown]) :=
  (C3_handlePacket c3State c3NetState 2 false 2 rfl (by decide)).2 (by decide)

/-- In a two-element trace consisting of a thread-id store followed by the
attach broadcast, any decomposition around the broadcast puts the store in
the prefix. -/
theorem setId_mem_of_broadcast_split (x : Nat) (pre post : List Ev)
    (h : ([Ev.setDebugThreadId x, Ev.attachBroadcast] : List Ev) =
      pre ++ Ev.attachBroadcast :: post) :
    Ev.setDebugThreadId x ∈ pre := by
  match pre with
  | [] => simp at h
  | [a] =>
    simp at h
    simp [h.1.symm]
  | a :: b :: rest =>
    have hlen := congrArg List.length h
    simp at hlen

/-- C9: in every Run connection-phase trace, any attach_cond_ broadcast is
preceded by a store of a non-zero debug_thread_id_ (the uint64 sentinel
2^64 - 1 = (ObjectId)-1 on Establish failure, the attached thread's id on
handshake success); the Establish-failure path stores exactly the -1
sentinel; and the Create(suspend=y) wait, which returns only once the id
is non-zero, yields the controller exactly when IsActive() holds and none
otherwise. -/
theorem C9_attach_order (is_server connect_ok process_ok awaiting_after : Bool) (tid : Nat)
    (htid : tid ≠ 0) :
    (∀ pre post,
        RunConnectTrace is_server connect_ok process_ok awaiting_after tid =
            pre ++ Ev.attachBroadcast :: post →
          ∃ v, v ≠ 0 ∧ Ev.setDebugThreadId v ∈ pre) ∧
      (connect_ok = false → is_server = false →
        RunConnectTrace is_server connect_ok process_ok awaiting_after tid =
          [Ev.setDebugThreadId (2 ^ 64 - 1), Ev.attachBroadcast]) ∧
      (∀ id : Nat, id ≠ 0 →
        CreateSuspendWait id true = some id ∧ CreateSuspendWait id false = none) := by
  refine ⟨?_, ?_, ?_⟩
  · intro pre post h
    unfold RunConnectTrace at h
    cases connect_ok
    · cases is_server
      · simp only [Bool.false_eq_true, if_false] at h
        exact ⟨2 ^ 64 - 1, by decide, setId_mem_of_broadcast_split _ pre post h⟩
      · simp at h
    · cases process_ok
      · simp at h
      · cases awaiting_after
        · simp only [Bool.false_eq_true, if_false, if_true] at h
          exact ⟨tid, htid, setId_mem_of_broadcast_split _ pre post (by simpa using h)⟩
        · simp at h
  · intro h1 h2
    subst h1
    subst h2
    simp [RunConnectTrace]
  · intro id hid
    exact ⟨by simp [CreateSuspendWait], by simp [CreateSuspendWait]⟩

/-- Witness for C9 on the Establish-failure path with thread id 5. -/
theorem C9_attach_order_witness :
    (∀ pre post,
        RunConnectTrace false false true false 5 = pre ++ Ev.attachBroadcast :: post →
          ∃ v, v ≠ 0 ∧ Ev.setDebugThreadId v ∈ pre) ∧
      (false = false → false = false →
        RunConnectTrace false false true false 5 =
          [Ev.setDebugThreadId (2 ^ 64 - 1), Ev.attachBroadcast]) ∧
      (∀ id : Nat, id ≠ 0 →
        CreateSuspendWait id true = some id ∧ CreateSuspendWait id false = none) :=
  C9_attach_order false false true false 5 (by decide)

end ArtJdwp
